import Mathlib

/-!
Verification of the Brivo CSV web application's API client (`app/brivo.py`,
`app/util.py`, `app/brivo_errors.py`) against its natural-language
specification.  The Python client is embedded shallowly:

* parsed JSON documents are the inductive type `JsonVal`;
* Python exceptions are the inductive type `PyError`; the
  `except BrivoUserNotFoundError` handler in `create_user` is modelled by
  the discriminating predicate `isUserNotFound`;
* the transport layer (`BrivoApi.call`, `healthcheck`, `_process_error`,
  `BrivoApi.__init__`/`refresh_token`) is modelled as pure functions from
  the token state, the current time and the HTTP response to a trace of
  emitted events and a result; `refresh_token` is abstracted as a single
  `Event.refresh` step that records the refresh token it would send;
* the orchestration layer (`create_user`, `toggle_member_suspend`,
  `remove_all_credentials_from_user`, ...) runs in the
  state/trace/exception monad `M` over the instance caches (`St`); the
  remote directory answers every request with data drawn from an
  environment `Env`, mirroring how the repository's unit tests mock
  `BrivoApi._http_request`.  At this layer `self.call` is modelled at the
  level of its already unwrapped JSON result (the transport-level
  unwrapping itself is verified separately on the `call` function).
  `asyncio.gather` is modelled by sequential execution that runs every
  branch to completion and fails with the first failed branch (gather
  does not cancel in-flight siblings); `asyncio.sleep(0.1)` emits an
  `Event.pause`.
-/

/-- Parsed JSON documents, the values manipulated by the Python client. -/
inductive JsonVal where
  | null
  | bool (b : Bool)
  | num (n : Int)
  | str (s : String)
  | arr (elems : List JsonVal)
  | obj (fields : List (String × JsonVal))

/-- Python exceptions raised by the client.  `brivoError`, `brivoApiError`
and `brivoUserNotFound` model the classes of `app/brivo_errors.py`; the
remaining constructors model built-in Python exceptions that the code can
raise (`ValueError`, `AttributeError`, `TypeError`, `KeyError`,
`UnboundLocalError`, `json.JSONDecodeError`). -/
inductive PyError where
  | brivoError (msg : String)
  | brivoApiError (msg : String)
  | brivoUserNotFound (msg : String)
  | valueError (msg : String)
  | attributeError (msg : String)
  | typeError (msg : String)
  | keyError (key : String)
  | unboundLocal (name : String)
  | jsonDecode
deriving DecidableEq, Repr

/-- The `except BrivoUserNotFoundError` clause of `create_user` catches
exactly the values built by `PyError.brivoUserNotFound`. -/
def isUserNotFound : PyError → Bool
  | .brivoUserNotFound _ => true
  | _ => false

/-- Request payloads.  Each `json.dumps` call site in `app/brivo.py`
serializes a dictionary of one fixed shape; payloads are modelled by that
shape instead of by the serialized string.  `raw` carries the
caller-supplied `data`/`body` string of the generic `call`. -/
inductive Body where
  | raw (s : String)
  | nameBody (firstName lastName : String)
  | valueBody (value : String)
  | addGroups (ids : List String)
  | removeGroups (ids : List String)
  | suspendedBody (b : Bool)
deriving DecidableEq, Repr

/-- Observable actions of the client: a token refresh (carrying the
refresh token that `refresh_token` would send), an HTTP request, or the
`asyncio.sleep(0.1)` pause between batches. -/
inductive Event where
  | refresh (refreshTok : Option String)
  | req (method url : String) (body : Option Body)
  | pause
deriving DecidableEq, Repr

/-- Python truthiness of an optional string argument (`None` and the
empty string are falsy). -/
def truthyS (o : Option String) : Bool :=
  match o with
  | none => false
  | some s => s ≠ ""

/-- Dictionary lookup on the association list of a `JsonVal.obj`
(first occurrence; Python dict keys are unique). -/
def jlookup : List (String × JsonVal) → String → Option JsonVal
  | [], _ => none
  | (k, v) :: rest, key => if k = key then some v else jlookup rest key

/-- Substring test on character lists (used for Python's `key in s` when
`s` is a string). -/
def charsHaveSub (needle hay : List Char) : Bool :=
  (List.range (hay.length + 1)).any fun i => needle.isPrefixOf (hay.drop i)

/-- Python `key in data` for a parsed JSON document: key membership on a
dict, element equality on a list, substring search on a string, and a
`TypeError` on non-iterable values. -/
def pyContainsKey : JsonVal → String → Except PyError Bool
  | .obj kvs, k => .ok (jlookup kvs k).isSome
  | .arr xs, k =>
      .ok (xs.any fun j => match j with | .str s => s = k | _ => false)
  | .str s, k => .ok (charsHaveSub k.data s.data)
  | _, _ => .error (.typeError "argument of type is not iterable")

/-- Python `data[key]` with a string key: dict lookup (raising `KeyError`
when absent) and a `TypeError` on every other value. -/
def pyIndex : JsonVal → String → Except PyError JsonVal
  | .obj kvs, k =>
      match jlookup kvs k with
      | some v => .ok v
      | none => .error (.keyError k)
  | _, _ => .error (.typeError "indices must be integers")

/-- Python `f"{value}"` (`str`) of a parsed JSON value.  The repr of
nested containers is not spelled out (no claim depends on it). -/
def fstringJson : JsonVal → String
  | .str s => s
  | .num n => toString n
  | .bool true => "True"
  | .bool false => "False"
  | .null => "None"
  | .arr _ => "<list repr not modelled>"
  | .obj _ => "<dict repr not modelled>"

/-- The `"Error from BrivoAPI [{status}]: "` prefix of every message
built by `_process_error`. -/
def errMsgHead (status : Nat) : String :=
  "Error from BrivoAPI [" ++ toString status ++ "]: "

/-- The optional `" - {error_description}"` suffix appended by
`_process_error` when the error body carries an `error_description`. -/
def descSuffix (kvs : List (String × JsonVal)) : String :=
  match jlookup kvs "error_description" with
  | some v => " - " ++ fstringJson v
  | none => ""

/-- First key of `keys` present in the parsed body `data`, as found by
the `for key in ["message", "error"]` loop of `_process_error`. -/
def firstPresentKey (data : JsonVal) : List String → Except PyError (Option String)
  | [] => .ok none
  | k :: ks =>
      match pyContainsKey data k with
      | .error e => .error e
      | .ok true => .ok (some k)
      | .ok false => firstPresentKey data ks

/-- `BrivoApi._process_error` (app/brivo.py:168-182).  Input: the
response status, its parsed JSON body (`none` when the body is not valid
JSON, in which case `response.json()` itself raises a decode error), and
the raw body text.  Result `none` means the response was accepted
(status < 400); `some e` means the exception `e` was raised. -/
def process_error (status : Nat) (jsonBody : Option JsonVal) (text : String) :
    Option PyError :=
  if status < 400 then none
  else
    match jsonBody with
    | none => some .jsonDecode
    | some data =>
      match firstPresentKey data ["message", "error"] with
      | .error e => some e
      | .ok (some key) =>
          match pyIndex data key with
          | .error e => some e
          | .ok (.str s) =>
              match data with
              | .obj kvs =>
                  some (.brivoApiError (errMsgHead status ++ s ++ descSuffix kvs))
              | _ =>
                  -- a non-dict body whose membership test succeeded has
                  -- already raised inside `pyIndex`; unreachable
                  some (.typeError "indices must be integers")
          | .ok _ => some (.typeError "can only concatenate str to str")
      | .ok none => some (.brivoApiError (errMsgHead status ++ text))

/-- Modelled from the spec: the classification order of §4.2 — try a
`message` field (optionally suffixed with `error_description`), then an
`error` field (optionally suffixed), otherwise the raw response body
text, always prefixed with the status. -/
def specErrorMessage (status : Nat) (kvs : List (String × JsonVal)) (text : String) :
    String :=
  match jlookup kvs "message" with
  | some (.str m) => errMsgHead status ++ m ++ descSuffix kvs
  | _ =>
    match jlookup kvs "error" with
    | some (.str e) => errMsgHead status ++ e ++ descSuffix kvs
    | _ => errMsgHead status ++ text

/-- The token triple held by a `BrivoApi` instance (`_access_token`,
`_refresh_token`, `_expires_after`); timestamps are integers. -/
structure TokenState where
  accessToken : Option String
  refreshToken : Option String
  expiresAfter : Int
deriving DecidableEq, Repr

/-- An HTTP response as seen by the client: status, parsed JSON body
(`none` when the body is not valid JSON) and raw text. -/
structure HttpResponse where
  status : Nat
  jsonBody : Option JsonVal
  text : String

/-- `BrivoApi.__init__` (app/brivo.py:39-61), restricted to the token
fields: the expiry is initialized to the construction time `now` and the
two tokens to `None`; a supplied `token_data` overrides all three. -/
def initTokenState (now : Int) (tokenData : Option TokenState) : TokenState :=
  match tokenData with
  | none => { accessToken := none, refreshToken := none, expiresAfter := now }
  | some td =>
      { accessToken := td.accessToken
        refreshToken := td.refreshToken
        expiresAfter := td.expiresAfter }

/-- The response-handling tail of `BrivoApi.call` (app/brivo.py:201-214):
classify errors, return an empty dict on 204, raise a `BrivoError` on an
invalid JSON body, and unwrap a top-level `data` field when the parsed
body is a dict — `request_data.get` on any other parsed value (for
instance a bare JSON list) raises `AttributeError`. -/
def callResult (resp : HttpResponse) : Except PyError JsonVal :=
  match process_error resp.status resp.jsonBody resp.text with
  | some e => .error e
  | none =>
    if resp.status = 204 then .ok (JsonVal.obj [])
    else
      match resp.jsonBody with
      | none => .error (.brivoError "Invalid JSON response")
      | some parsed =>
        match parsed with
        | .obj kvs => .ok ((jlookup kvs "data").getD (JsonVal.obj kvs))
        | _ => .error (.attributeError "object has no attribute get")

/-- `BrivoApi.call` (app/brivo.py:184-214) as a function of the token
state, the current time and the response the wire would return: reject a
simultaneous `body` and `data`, refresh when the expiry has passed, issue
the request, and hand the response to `callResult`.  The result is the
trace of events together with the returned JSON value or the raised
exception. -/
def call (tok : TokenState) (now : Int) (url method : String)
    (data body : Option String) (resp : HttpResponse) :
    List Event × Except PyError JsonVal :=
  if truthyS body && truthyS data then
    ([], .error (.valueError "body and data cannot be used together"))
  else
    let refreshes :=
      if tok.expiresAfter < now then [Event.refresh tok.refreshToken] else []
    let request_data := if truthyS body then body else data
    (refreshes ++ [Event.req method url (request_data.map Body.raw)], callResult resp)

/-- The response handling of `healthcheck`: classify errors, otherwise
hand back the raw response. -/
def healthResult (resp : HttpResponse) : Except PyError HttpResponse :=
  match process_error resp.status resp.jsonBody resp.text with
  | some e => .error e
  | none => .ok resp

/-- `BrivoApi.healthcheck` (app/brivo.py:140-148): refresh when expired,
then a plain GET of the administrators endpoint, returning the raw
response. -/
def healthcheck (tok : TokenState) (now : Int) (resp : HttpResponse) :
    List Event × Except PyError HttpResponse :=
  let refreshes :=
    if tok.expiresAfter < now then [Event.refresh tok.refreshToken] else []
  (refreshes ++ [Event.req "GET" "https://api.brivo.com/v1/api/administrators" none],
   healthResult resp)

/-- Recursion worker for `gen_batches`.  The explicit fuel (an upper
bound on the number of remaining elements) makes the recursion
structural, so the function evaluates by kernel reduction;
`gen_batchesF_irrel` below shows any sufficient fuel gives the same
result. -/
def gen_batchesF : Nat → List α → Nat → List (List α)
  | _, [], _ => []
  | 0, _ :: _, _ => []
  | fuel + 1, x :: xs, n =>
    if n = 0 then []
    else (x :: xs).take n :: gen_batchesF fuel ((x :: xs).drop n) n

/-- `gen_batches` (app/util.py:49-52): slice a list into consecutive
chunks of size `n`.  The source never calls it with `n = 0` (Python's
`range` would raise there); the model returns `[]` for totality. -/
def gen_batches (l : List α) (n : Nat) : List (List α) :=
  gen_batchesF l.length l n

/-- A remote user record as returned by the users endpoint
(`{id, firstName, lastName}`). -/
structure UserRec where
  id : String
  firstName : String
  lastName : String
deriving DecidableEq, Repr

/-- A custom-field record (`{fieldName, id}`). -/
structure CFRec where
  fieldName : String
  id : String
deriving DecidableEq, Repr

/-- A group record (`{name, id}`). -/
structure GroupRec where
  name : String
  id : String
deriving DecidableEq, Repr

/-- A credential record (`{id}`); only the id is read by the client. -/
structure CredRec where
  id : String
deriving DecidableEq, Repr

/-- The remote directory's answers to the client's queries, one field per
endpoint the orchestration layer reads.  Mutation responses (`POST`,
`PUT`, `DELETE` bodies) are never inspected by the source and are
modelled as the empty JSON object. -/
structure Env where
  customFields : List CFRec
  usersForMember : String → List UserRec
  groups : List GroupRec
  credsFor : String → String → List CredRec
  createdUser : UserRec
  userGroups : String → List GroupRec
  userCreds : String → List CredRec

/-- The per-instance memoization caches (`alru_cache` on
`_find_memberid_custom_field`, `find_group_id_by_name` and
`_find_credential`).  Failed lookups are not cached, matching
`alru_cache` (an exception evicts the in-flight entry). -/
structure St where
  memberFieldId : Option String
  groupCache : List (String × String)
  credCache : List ((String × String) × CredRec)
deriving DecidableEq, Repr

/-- The empty caches of a freshly constructed client. -/
def st0 : St := { memberFieldId := none, groupCache := [], credCache := [] }

/-- The orchestration monad: caches in, then the trace of events, the
updated caches and the result or raised exception. -/
def M (α : Type) : Type := St → List Event × St × Except PyError α

/-- Return without effects. -/
def pureM (a : α) : M α := fun s => ([], s, .ok a)

/-- Sequencing: run `m`; on an exception propagate it (keeping the trace
and cache updates produced so far), otherwise continue with `k`. -/
def bindM (m : M α) (k : α → M β) : M β := fun s =>
  let r := m s
  match r.2.2 with
  | .error e => (r.1, r.2.1, .error e)
  | .ok a =>
    let r2 := k a r.2.1
    (r.1 ++ r2.1, r2.2.1, r2.2.2)

/-- Raise a Python exception. -/
def throwPy (e : PyError) : M α := fun s => ([], s, .error e)

/-- `asyncio.sleep(0.1)`. -/
def sleepM : M Unit := fun s => ([Event.pause], s, .ok ())

/-- Discard a result (used to put differently typed coroutines into one
`asyncio.gather` list). -/
def mvoid (m : M α) : M Unit := bindM m (fun _ => pureM ())

/-- Python `try ... except C` where `isCaught` decides whether the raised
exception is an instance of `C`: a caught exception runs the handler from
the state the body left behind; everything else propagates. -/
def tryCatchPy (m : M α) (isCaught : PyError → Bool) (handler : M α) : M α := fun s =>
  let r := m s
  match r.2.2 with
  | .error e =>
      if isCaught e then
        let r2 := handler r.2.1
        (r.1 ++ r2.1, r2.2.1, r2.2.2)
      else r
  | .ok _ => r

/-- A remote call on the orchestration layer: emits its request event and
returns the environment-supplied answer.  (Transport-level concerns —
token refresh, error classification, `data` unwrapping — are verified
separately on `call`.) -/
def remote (ev : Event) (v : α) : M α := fun s => ([ev], s, .ok v)

/-- Run a list of coroutines in submission order, collecting every trace
and every outcome; models the fact that `asyncio.gather` does not cancel
in-flight siblings when one of them fails. -/
def runSeq : List (M α) → St → List Event × St × List (Except PyError α)
  | [], s => ([], s, [])
  | m :: ms, s =>
    let r := m s
    let rest := runSeq ms r.2.1
    (r.1 ++ rest.1, rest.2.1, r.2.2 :: rest.2.2)

/-- Join the outcomes of a gather: the first failure (in submission
order) fails the join, otherwise all results are returned in order. -/
def collectResults : List (Except PyError α) → Except PyError (List α)
  | [] => .ok []
  | .error e :: _ => .error e
  | .ok a :: rest =>
    match collectResults rest with
    | .error e => .error e
    | .ok as => .ok (a :: as)

/-- `asyncio.gather(*ms)`. -/
def gatherM (ms : List (M α)) : M (List α) := fun s =>
  let r := runSeq ms s
  (r.1, r.2.1, collectResults r.2.2)

/-- URL of the custom-fields listing. -/
def customFieldsUrl : String := "https://api.brivo.com/v1/api/custom-fields?pageSize=100"

/-- URL of the member-id filtered users listing. -/
def usersFilterUrl (fid member_id : String) : String :=
  "https://api.brivo.com/v1/api/users?filter=cf_" ++ fid ++ "__eq:" ++ member_id

/-- URL of the groups listing. -/
def groupsListUrl : String := "https://api.brivo.com/v1/api/groups?pageSize=100"

/-- URL of the users collection (user creation). -/
def usersUrl : String := "https://api.brivo.com/v1/api/users"

/-- URL of a user's member-id custom field. -/
def userCustomFieldUrl (user_id fid : String) : String :=
  "https://api.brivo.com/v1/api/users/" ++ user_id ++ "/custom-fields/" ++ fid

/-- URL of a user's groups sub-resource. -/
def userGroupsUrl (user_id : String) : String :=
  "https://api.brivo.com/v1/api/users/" ++ user_id ++ "/groups"

/-- URL of a user's credentials listing. -/
def userCredsListUrl (user_id : String) : String :=
  "https://api.brivo.com/v1/api/users/" ++ user_id ++ "/credentials"

/-- URL of one credential assignment of a user. -/
def userCredUrl (user_id credential_id : String) : String :=
  "https://api.brivo.com/v1/api/users/" ++ user_id ++ "/credentials/" ++ credential_id

/-- URL of the filtered credentials listing. -/
def credFilterUrl (ref_id facility_id : String) : String :=
  "https://api.brivo.com/v1/api/credentials?filter=reference_id__eq:" ++ ref_id ++
    ";facility_code__eq:" ++ facility_id

/-- URL of a user's suspended flag. -/
def suspendUrl (user_id : String) : String :=
  "https://api.brivo.com/v1/api/users/" ++ user_id ++ "/suspended"

/-- Python `str.lower()`, character by character (the compared names are
ASCII). -/
def strLower (s : String) : String := String.mk (s.data.map Char.toLower)

/-- The member-id field-name synonyms of `_find_memberid_custom_field`. -/
def expected_field_names : List String :=
  ["member id", "memberid", "member_id", "member_number", "member number", "membernumber"]

/-- The linear scan of the custom-fields listing performed by
`_find_memberid_custom_field`. -/
def findField : List CFRec → Option String
  | [] => none
  | f :: rest =>
    if strLower f.fieldName ∈ expected_field_names then some f.id else findField rest

/-- `BrivoApi._find_memberid_custom_field` (app/brivo.py:297-315),
memoized: the custom-fields listing is fetched once, the first field
whose lowered name is a recognized synonym wins, and a missing field
raises a `BrivoError` (which is not cached). -/
def find_memberid_custom_field (env : Env) : M String := fun s =>
  match s.memberFieldId with
  | some fid => ([], s, .ok fid)
  | none =>
    match findField env.customFields with
    | some fid =>
        ([Event.req "GET" customFieldsUrl none],
         { s with memberFieldId := some fid }, .ok fid)
    | none =>
        ([Event.req "GET" customFieldsUrl none], s,
         .error (.brivoError
           ("Member ID custom field not found. Check if custom field named " ++
            String.intercalate "," expected_field_names ++ " exists")))

/-- The not-found message of `find_user_by_member_id`. -/
def notFoundMsg (member_id : String) : String :=
  "No user with member ID " ++ member_id ++ " found"

/-- The multiple-matches message of `find_user_by_member_id`. -/
def multiMatchMsg (member_id : String) : String :=
  "Multiple users with member ID " ++ member_id ++
    " found in Brivo. Proceed manually... with caution"

/-- `BrivoApi.find_user_by_member_id` (app/brivo.py:355-363): resolve the
member-id field, query users filtered by it, and signal zero matches
(`BrivoUserNotFoundError`) and multiple matches (`BrivoError`) as
distinct conditions. -/
def find_user_by_member_id (env : Env) (member_id : String) : M UserRec :=
  bindM (find_memberid_custom_field env) fun fid =>
  bindM (remote (Event.req "GET" (usersFilterUrl fid member_id) none)
          (env.usersForMember member_id)) fun data =>
  match data with
  | [] => throwPy (.brivoUserNotFound (notFoundMsg member_id))
  | [u] => pureM u
  | _ => throwPy (.brivoError (multiMatchMsg member_id))

/-- The case-insensitive scan of the groups listing performed by
`find_group_id_by_name`. -/
def findGroupCI (name : String) : List GroupRec → Option String
  | [] => none
  | g :: rest =>
    if strLower g.name = strLower name then some g.id else findGroupCI name rest

/-- `BrivoApi.find_group_id_by_name` (app/brivo.py:317-325), memoized on
the (original, unlowered) name: a cache hit answers without a remote
call; a miss fetches the groups listing, compares names
case-insensitively, caches a hit and raises (uncached) on not-found. -/
def find_group_id_by_name (env : Env) (name : String) : M String := fun s =>
  match s.groupCache.lookup name with
  | some gid => ([], s, .ok gid)
  | none =>
    match findGroupCI name env.groups with
    | some gid =>
        ([Event.req "GET" groupsListUrl none],
         { s with groupCache := s.groupCache ++ [(name, gid)] }, .ok gid)
    | none =>
        ([Event.req "GET" groupsListUrl none], s,
         .error (.brivoError ("Group " ++ name ++ " not found")))

/-- The batch loop of `_assign_user_to_groups` (app/brivo.py:279-282):
walk the batches, gather the per-name lookups of the batch, extend the
accumulator `res`, remember the batch result in `x` and pause.  Source
fidelity note: the loop variable `x` starts unbound (`none`) and `res`
is returned only to mirror that the source computes it. -/
def assign_batches_loop (env : Env) (batches : List (List String))
    (x : Option (List String)) (res : List String) : M (Option (List String) × List String) :=
  match batches with
  | [] => pureM (x, res)
  | b :: rest =>
    bindM (gatherM (b.map fun name => find_group_id_by_name env name)) fun xs =>
    bindM sleepM fun _ =>
    assign_batches_loop env rest (some xs) (res ++ xs)

/-- `BrivoApi._assign_user_to_groups` (app/brivo.py:277-287): resolve the
group names in batches of 5, then POST `{"addGroups": x}` — where `x` is
the last batch's resolved ids (and is unbound when there was no batch),
exactly as in the source. -/
def assign_user_to_groups (env : Env) (user_id : String) (group_names : List String) :
    M JsonVal :=
  bindM (assign_batches_loop env (gen_batches group_names 5) none []) fun xr =>
  match xr.1 with
  | none => throwPy (.unboundLocal "x")
  | some xs =>
      remote (Event.req "POST" (userGroupsUrl user_id) (some (Body.addGroups xs)))
        (JsonVal.obj [])

/-- `BrivoApi._set_member_id_value` (app/brivo.py:289-295): resolve the
member-id field (memoized) and PUT the value into it. -/
def set_member_id_value (env : Env) (user_id value : String) : M JsonVal :=
  bindM (find_memberid_custom_field env) fun fid =>
  remote (Event.req "PUT" (userCustomFieldUrl user_id fid)
           (some (Body.valueBody value)))
    (JsonVal.obj [])

/-- `BrivoApi._find_credential` (app/brivo.py:344-353), memoized on the
pair `(facility_id, ref_id)`: zero and multiple matches raise (uncached),
one match is cached and returned. -/
def find_credential (env : Env) (facility_id ref_id : String) : M CredRec := fun s =>
  match s.credCache.lookup (facility_id, ref_id) with
  | some c => ([], s, .ok c)
  | none =>
    match env.credsFor facility_id ref_id with
    | [] =>
        ([Event.req "GET" (credFilterUrl ref_id facility_id) none], s,
         .error (.brivoError ("No credentials with reference ID " ++ ref_id ++
           " found in facility " ++ facility_id)))
    | [c] =>
        ([Event.req "GET" (credFilterUrl ref_id facility_id) none],
         { s with credCache := s.credCache ++ [((facility_id, ref_id), c)] }, .ok c)
    | _ =>
        ([Event.req "GET" (credFilterUrl ref_id facility_id) none], s,
         .error (.brivoError ("Multiple credentials with reference ID " ++ ref_id ++
           " found in facility " ++ facility_id)))

/-- `BrivoApi._assign_credential` (app/brivo.py:335-342). -/
def assign_credential (user_id credential_id : String) : M JsonVal :=
  remote (Event.req "PUT" (userCredUrl user_id credential_id) none) (JsonVal.obj [])

/-- `BrivoApi.assign_card` (app/brivo.py:327-333). -/
def assign_card (env : Env) (user_id facility_id card_number : String) : M JsonVal :=
  bindM (find_credential env facility_id card_number) fun credential =>
  assign_credential user_id credential.id

/-- `BrivoApi.remove_all_groups_from_user` (app/brivo.py:376-390): list
the user's groups; when there are none return immediately, otherwise
POST `removeGroups` with all their ids. -/
def remove_all_groups_from_user (env : Env) (user_id member_id : String) : M Unit :=
  bindM (remote (Event.req "GET" (userGroupsUrl user_id) none)
          (env.userGroups user_id)) fun groups =>
  let group_ids := groups.map GroupRec.id
  if group_ids.isEmpty then pureM ()
  else
    bindM (remote (Event.req "POST" (userGroupsUrl user_id)
             (some (Body.removeGroups group_ids)))
            (JsonVal.obj [])) fun _ =>
    pureM ()

/-- `BrivoApi.list_all_user_credentials` (app/brivo.py:216-218). -/
def list_all_user_credentials (env : Env) (user_id : String) : M (List String) :=
  bindM (remote (Event.req "GET" (userCredsListUrl user_id) none)
          (env.userCreds user_id)) fun data =>
  pureM (data.map CredRec.id)

/-- The DELETE of one credential assignment inside
`remove_all_credentials_from_user`. -/
def delEv (user_id credential_id : String) : Event :=
  Event.req "DELETE" (userCredUrl user_id credential_id) none

/-- The `for batch in gen_batches(calls, 5)` loop of
`remove_all_credentials_from_user`: gather each batch, then pause. -/
def run_batches (batches : List (List (M JsonVal))) : M Unit :=
  match batches with
  | [] => pureM ()
  | b :: rest =>
    bindM (gatherM b) fun _ =>
    bindM sleepM fun _ =>
    run_batches rest

/-- `BrivoApi.remove_all_credentials_from_user` (app/brivo.py:220-229):
list the user's credentials, build one DELETE per credential, and run
them in batches of 5 with a pause after each batch.  `member_id` is only
logged by the source. -/
def remove_all_credentials_from_user (env : Env) (user_id member_id : String) : M Bool :=
  bindM (list_all_user_credentials env user_id) fun ids =>
  bindM (run_batches (gen_batches
          (ids.map fun credential_id => remote (delEv user_id credential_id) (JsonVal.obj [])) 5)) fun _ =>
  pureM true

/-- The conflict message of `create_user` on a name mismatch. -/
def conflictMsg (member_id : String) : String :=
  "User with member ID " ++ member_id ++
    " already exists in Brivo, but with different name. Refusing to update automatically"

/-- `BrivoApi.create_user` (app/brivo.py:236-275): validate the
card/facility pairing, default the group list, look the user up by member
id (create on not-found, conflict on a name mismatch, reset groups and
credentials otherwise), then concurrently write the member id, assign the
groups and — when a card number is truthy — the card, returning the
user's id. -/
def create_user (env : Env) (first_name last_name member_id : String)
    (group_names : Option (List String)) (card_number facility_id : Option String) :
    M String :=
  if (facility_id.isNone).xor (card_number.isNone) then
    throwPy (.valueError "Both facility_id and card_number must be provided or none of them")
  else
    let gns := group_names.getD []
    bindM
      (tryCatchPy
        (bindM (find_user_by_member_id env member_id) fun user =>
          if user.firstName ≠ first_name ∨ user.lastName ≠ last_name then
            throwPy (.brivoError (conflictMsg member_id))
          else
            bindM (gatherM
              [mvoid (remove_all_groups_from_user env user.id member_id),
               mvoid (remove_all_credentials_from_user env user.id member_id)]) fun _ =>
            pureM user)
        isUserNotFound
        (remote (Event.req "POST" usersUrl (some (Body.nameBody first_name last_name)))
          env.createdUser))
      fun user =>
        let base :=
          [mvoid (set_member_id_value env user.id member_id),
           mvoid (assign_user_to_groups env user.id gns)]
        let futures :=
          if truthyS card_number then
            -- the `.getD ""` defaults are unreachable: a truthy card number
            -- passed the xor check, so the facility id is present too
            base ++ [mvoid (assign_card env user.id (facility_id.getD "")
                      (card_number.getD ""))]
          else base
        bindM (gatherM futures) fun _ =>
        pureM user.id

/-- One-sided name comparison of the suspend guard: Python's
`user["firstName"] != first_name` is true whenever `first_name` is `None`
(the remote names are strings). -/
def neOptB (remoteName : String) (supplied : Option String) : Bool :=
  match supplied with
  | none => true
  | some s => remoteName ≠ s

/-- The safety check of `toggle_member_suspend` (app/brivo.py:368):
`any([first_name, last_name]) and (user["firstName"] != first_name or
user["lastName"] != last_name)`. -/
def suspend_guard (user : UserRec) (first_name last_name : Option String) : Bool :=
  (truthyS first_name || truthyS last_name) &&
    (neOptB user.firstName first_name || neOptB user.lastName last_name)

/-- The refusal message of `toggle_member_suspend`. -/
def refusalMsg : String :=
  "Member ID does not match the first and last name. Refusing to suspend"

/-- `BrivoApi.toggle_member_suspend` (app/brivo.py:365-374): look the
user up by member id, refuse when the safety check fires, otherwise PUT
the suspended flag. -/
def toggle_member_suspend (env : Env) (member_id : String) (suspend : Bool)
    (first_name last_name : Option String) : M JsonVal :=
  bindM (find_user_by_member_id env member_id) fun user =>
  if suspend_guard user first_name last_name then
    throwPy (.brivoError refusalMsg)
  else
    remote (Event.req "PUT" (suspendUrl user.id) (some (Body.suspendedBody suspend)))
      (JsonVal.obj [])

/-- Substring containment of strings, witnessed by an explicit split. -/
def containsSub (s sub : String) : Prop := ∃ pre post, s = pre ++ sub ++ post

/-- Event classifiers used to count issued requests by method. -/
def isDeleteEv : Event → Bool
  | .req "DELETE" _ _ => true
  | _ => false

/-- Recognizes GET requests. -/
def isGetEv : Event → Bool
  | .req "GET" _ _ => true
  | _ => false

/-- Recognizes PUT requests. -/
def isPutEv : Event → Bool
  | .req "PUT" _ _ => true
  | _ => false

/-- Recognizes POST requests. -/
def isPostEv : Event → Bool
  | .req "POST" _ _ => true
  | _ => false

/-- The `addGroups` payload of a POST event, when it is one. -/
def postedAddGroups : Event → Option (List String)
  | .req "POST" _ (some (.addGroups ids)) => some ids
  | _ => none

/-- The credential ids the environment reports for a user. -/
def credIds (env : Env) (user_id : String) : List String :=
  (env.userCreds user_id).map CredRec.id

/-- The DELETE events of `remove_all_credentials_from_user` in listing
order. -/
def delEvents (user_id : String) (ids : List String) : List Event :=
  ids.map (delEv user_id)

/-- Caches warmed with the member-id field id `"11"` (the state after one
custom-fields discovery, as in the repository's tests). -/
def stWarm : St := { memberFieldId := some "11", groupCache := [], credCache := [] }

/-- The test fixture user `{id: "16", firstName: "Test", lastName: "User"}`. -/
def uTest : UserRec := { id := "16", firstName := "Test", lastName := "User" }

/-- The test fixture user `{id: "987", firstName: "Bob", lastName: "Smith"}`. -/
def uBob : UserRec := { id := "987", firstName := "Bob", lastName := "Smith" }

/-- A base remote directory mirroring the unit-test mocks: one recognized
member-id custom field with id `"11"`, no users, and a creation endpoint
answering with user `"42"`. -/
def envBase : Env :=
  { customFields := [{ fieldName := "member id", id := "11" }]
    usersForMember := fun _ => []
    groups := []
    credsFor := fun _ _ => []
    createdUser := { id := "42", firstName := "Test", lastName := "User" }
    userGroups := fun _ => []
    userCreds := fun _ => [] }

/-- The base directory extended with six groups (more than one batch). -/
def envSix : Env :=
  { envBase with
    groups :=
      [{ name := "G1", id := "1" }, { name := "G2", id := "2" },
       { name := "G3", id := "3" }, { name := "G4", id := "4" },
       { name := "G5", id := "5" }, { name := "G6", id := "6" }] }

/-- The base directory where member id `"42"` resolves to the fixture
user `uTest`. -/
def envToggle : Env :=
  { envBase with usersForMember := fun m => if m = "42" then [uTest] else [] }

/-- A directory whose member-id lookups answer with zero, one or two
matches depending on the queried member id. -/
def envMulti : Env :=
  { envBase with
    usersForMember := fun m =>
      if m = "zero" then [] else if m = "one" then [uTest] else [uTest, uBob] }

/-- A directory where every member-id lookup answers with the fixture
user `uBob` (whose name differs from "Test User"). -/
def envConflict : Env :=
  { envBase with usersForMember := fun _ => [uBob] }

/-- A successful empty-object response. -/
def respOk : HttpResponse :=
  { status := 200, jsonBody := some (JsonVal.obj []), text := "" }

/-- The base directory where every user holds seven credentials. -/
def envCreds7 : Env :=
  { envBase with
    userCreds := fun _ =>
      [{ id := "c1" }, { id := "c2" }, { id := "c3" }, { id := "c4" },
       { id := "c5" }, { id := "c6" }, { id := "c7" }] }

/-- A token state that is still fresh at time 0. -/
def tokFresh : TokenState :=
  { accessToken := some "test_access_token", refreshToken := some "test_refresh_token"
    expiresAfter := 100 }

/-- A token state that expired before time 0. -/
def tokStale : TokenState :=
  { accessToken := some "test_access_token", refreshToken := some "test_refresh_token"
    expiresAfter := -1 }

/-- String concatenation is associative (proved on the character lists). -/
theorem strAppendAssoc (a b c : String) : a ++ b ++ c = a ++ (b ++ c) := by
  cases a with
  | mk da =>
    cases b with
    | mk db =>
      cases c with
      | mk dc =>
        show String.mk (da ++ db ++ dc) = String.mk (da ++ (db ++ dc))
        rw [List.append_assoc]

/-- The fuel of `gen_batchesF` is irrelevant once it bounds the list
length. -/
theorem gen_batchesF_irrel (fuel1 fuel2 : Nat) (l : List α) (n : Nat)
    (h1 : l.length ≤ fuel1) (h2 : l.length ≤ fuel2) :
    gen_batchesF fuel1 l n = gen_batchesF fuel2 l n := by
  induction fuel1 generalizing fuel2 l with
  | zero =>
    cases l with
    | nil => cases fuel2 <;> rfl
    | cons x xs => simp at h1
  | succ f1 ih =>
    cases l with
    | nil => cases fuel2 <;> rfl
    | cons x xs =>
      cases fuel2 with
      | zero => simp at h2
      | succ f2 =>
        simp only [gen_batchesF]
        by_cases hn : n = 0
        · rw [if_pos hn, if_pos hn]
        · rw [if_neg hn, if_neg hn]
          congr 1
          refine ih _ ((x :: xs).drop n) ?_ ?_
          · simp only [List.length_drop, List.length_cons] at h1 ⊢
            omega
          · simp only [List.length_drop, List.length_cons] at h2 ⊢
            omega

/-- A one-step unfolding of `gen_batches` on a non-empty list. -/
theorem gen_batches_cons (x : α) (xs : List α) (n : Nat) (hn : n ≠ 0) :
    gen_batches (x :: xs) n = (x :: xs).take n :: gen_batches ((x :: xs).drop n) n := by
  show gen_batchesF (x :: xs).length (x :: xs) n = _
  simp only [List.length_cons, gen_batchesF, if_neg hn]
  congr 1
  refine gen_batchesF_irrel _ _ ((x :: xs).drop n) n ?_ ?_
  · simp only [List.length_drop, List.length_cons]
    omega
  · exact Nat.le_refl _

/-- `gen_batches` is empty on the empty list. -/
theorem gen_batches_nil (n : Nat) : gen_batches ([] : List α) n = [] := rfl

/-- The batches of `gen_batches` concatenate back to the input list. -/
theorem gen_batches_join (l : List α) (n : Nat) (hn : n ≠ 0) :
    (gen_batches l n).flatten = l := by
  cases l with
  | nil => rw [gen_batches_nil]; rfl
  | cons x xs =>
    rw [gen_batches_cons x xs n hn]
    simp only [List.flatten_cons]
    rw [gen_batches_join ((x :: xs).drop n) n hn, List.take_append_drop]
termination_by l.length
decreasing_by
  simp only [List.length_drop, List.length_cons]
  omega

/-- The number of size-5 batches is the ceiling of N/5. -/
theorem gen_batches_length5 (l : List α) :
    (gen_batches l 5).length = (l.length + 4) / 5 := by
  cases l with
  | nil => rw [gen_batches_nil]; simp
  | cons x xs =>
    rw [gen_batches_cons x xs 5 (by omega)]
    simp only [List.length_cons]
    rw [gen_batches_length5 ((x :: xs).drop 5)]
    simp only [List.length_drop, List.length_cons]
    omega
termination_by l.length
decreasing_by
  simp only [List.length_drop, List.length_cons]
  omega

/-- Every batch produced by `gen_batches _ 5` holds at most 5 elements. -/
theorem gen_batches_all_le5 (l : List α) :
    (gen_batches l 5).all (fun b => decide (b.length ≤ 5)) = true := by
  cases l with
  | nil => rw [gen_batches_nil]; rfl
  | cons x xs =>
    rw [gen_batches_cons x xs 5 (by omega)]
    simp only [List.all_cons, Bool.and_eq_true, decide_eq_true_eq]
    constructor
    · simp only [List.length_take]
      omega
    · exact gen_batches_all_le5 ((x :: xs).drop 5)
termination_by l.length
decreasing_by
  simp only [List.length_drop, List.length_cons]
  omega

/-- `gen_batches` with chunk size 0 is empty (the source never calls it
this way). -/
theorem gen_batches_zero (l : List α) : gen_batches l 0 = [] := by
  cases l with
  | nil => exact gen_batches_nil 0
  | cons x xs => rfl

/-- Batching commutes with mapping. -/
theorem gen_batches_map (f : α → β) (l : List α) (n : Nat) :
    gen_batches (l.map f) n = (gen_batches l n).map (List.map f) := by
  cases l with
  | nil => simp only [List.map_nil, gen_batches_nil]
  | cons x xs =>
    by_cases hn : n = 0
    · subst hn
      rw [gen_batches_zero, gen_batches_zero]
      rfl
    · rw [List.map_cons, gen_batches_cons (f x) (xs.map f) n hn,
        gen_batches_cons x xs n hn]
      simp only [List.map_cons]
      rw [← List.map_cons f x xs]
      rw [← List.map_take, ← List.map_drop]
      rw [gen_batches_map f ((x :: xs).drop n) n]
termination_by l.length
decreasing_by
  simp only [List.length_drop, List.length_cons]
  omega

/-- Running a list of delete `remote`s sequentially emits exactly their
events, keeps the caches unchanged, and succeeds everywhere. -/
theorem runSeq_remotes (user_id : String) (ids : List String) (s : St) :
    runSeq (ids.map fun cid => remote (delEv user_id cid) (JsonVal.obj [])) s
      = (ids.map (delEv user_id), s,
         ids.map fun _ => (Except.ok (JsonVal.obj []) : Except PyError JsonVal)) := by
  induction ids generalizing s with
  | nil => rfl
  | cons c cs ih =>
    simp only [List.map_cons, runSeq, remote, ih, List.singleton_append]

/-- Collecting all-successful outcomes yields all the values. -/
theorem collectResults_const_ok (l : List β) (v : α) :
    collectResults (l.map fun _ => (Except.ok v : Except PyError α)) = .ok (l.map fun _ => v) := by
  induction l with
  | nil => rfl
  | cons b bs ih => simp only [List.map_cons, collectResults, ih]

/-- Gathering a batch of delete `remote`s emits their events in order. -/
theorem gatherM_remotes (user_id : String) (ids : List String) (s : St) :
    gatherM (ids.map fun cid => remote (delEv user_id cid) (JsonVal.obj [])) s
      = (ids.map (delEv user_id), s, .ok (ids.map fun _ => JsonVal.obj [])) := by
  simp only [gatherM, runSeq_remotes, collectResults_const_ok]

/-- The batch loop over delete `remote`s emits each batch's events
followed by one pause. -/
theorem run_batches_remotes (user_id : String) (bs : List (List String)) (s : St) :
    run_batches (bs.map fun b => b.map fun cid => remote (delEv user_id cid) (JsonVal.obj [])) s
      = ((bs.map fun b => b.map (delEv user_id) ++ [Event.pause]).flatten, s, .ok ()) := by
  induction bs generalizing s with
  | nil => rfl
  | cons b rest ih =>
    simp only [List.map_cons, run_batches, bindM, gatherM_remotes, sleepM, ih,
      List.flatten_cons, List.append_assoc, List.singleton_append]

/-- Interleaving one pause after each chunk does not change counts of
pause-free predicates. -/
theorem countP_flatten_pause (bs : List (List Event)) (p : Event → Bool)
    (hp : p Event.pause = false) :
    ((bs.map fun b => b ++ [Event.pause]).flatten).countP p = (bs.flatten).countP p := by
  induction bs with
  | nil => rfl
  | cons b rest ih =>
    simp only [List.map_cons, List.flatten_cons, List.countP_append, ih,
      List.countP_cons, List.countP_nil, hp, Bool.false_eq_true, if_false]
    omega

/-- Every event of `delEvents` is a DELETE, so the count is the length. -/
theorem countP_delEvents_delete (user_id : String) (ids : List String) :
    (delEvents user_id ids).countP isDeleteEv = ids.length := by
  induction ids with
  | nil => rfl
  | cons c cs ih =>
    simp only [delEvents, List.map_cons, List.countP_cons, List.length_cons] at *
    rw [ih]
    rfl

/-- No event of `delEvents` is a GET. -/
theorem countP_delEvents_get (user_id : String) (ids : List String) :
    (delEvents user_id ids).countP isGetEv = 0 := by
  induction ids with
  | nil => rfl
  | cons c cs ih =>
    simp only [delEvents, List.map_cons, List.countP_cons] at *
    rw [ih]
    rfl

/-- With a warmed member-field cache and no remote match, the member-id
lookup issues one filtered GET and raises the distinguished not-found
error. -/
theorem find_user_warm_empty (env : Env) (m : String) (s : St) (fid : String)
    (hfid : s.memberFieldId = some fid) (hu : env.usersForMember m = []) :
    find_user_by_member_id env m s
      = ([Event.req "GET" (usersFilterUrl fid m) none], s,
         .error (.brivoUserNotFound (notFoundMsg m))) := by
  simp only [find_user_by_member_id, bindM, find_memberid_custom_field, hfid, remote,
    hu, throwPy, List.nil_append, List.append_nil]

/-- With a warmed member-field cache and exactly one remote match, the
member-id lookup issues one filtered GET and returns that user. -/
theorem find_user_warm_single (env : Env) (m : String) (s : St) (fid : String)
    (u : UserRec) (hfid : s.memberFieldId = some fid)
    (hu : env.usersForMember m = [u]) :
    find_user_by_member_id env m s
      = ([Event.req "GET" (usersFilterUrl fid m) none], s, .ok u) := by
  simp only [find_user_by_member_id, bindM, find_memberid_custom_field, hfid, remote,
    hu, pureM, List.nil_append, List.append_nil]

/-- With a warmed member-field cache and several remote matches, the
member-id lookup issues one filtered GET and raises the (uncaught)
multiple-matches error. -/
theorem find_user_warm_multi (env : Env) (m : String) (s : St) (fid : String)
    (u1 u2 : UserRec) (rest : List UserRec) (hfid : s.memberFieldId = some fid)
    (hu : env.usersForMember m = u1 :: u2 :: rest) :
    find_user_by_member_id env m s
      = ([Event.req "GET" (usersFilterUrl fid m) none], s,
         .error (.brivoError (multiMatchMsg m))) := by
  simp only [find_user_by_member_id, bindM, find_memberid_custom_field, hfid, remote,
    hu, throwPy, List.nil_append, List.append_nil]

/-- C9: for a user with N assigned credentials,
`remove_all_credentials_from_user` issues exactly one listing call and
exactly N delete calls, each scoped to the correct (user id, credential
id) pair, grouped into ceil(N/5) sequentially executed batches of at most
5 deletes with a pause after each batch. -/
theorem remove_all_credentials_batching (env : Env) (user_id member_id : String) (s : St) :
    remove_all_credentials_from_user env user_id member_id s
      = (Event.req "GET" (userCredsListUrl user_id) none ::
          ((gen_batches (delEvents user_id (credIds env user_id)) 5).map
            (fun b => b ++ [Event.pause])).flatten,
         s, .ok true)
    ∧ (gen_batches (delEvents user_id (credIds env user_id)) 5).flatten
        = delEvents user_id (credIds env user_id)
    ∧ (gen_batches (delEvents user_id (credIds env user_id)) 5).length
        = ((credIds env user_id).length + 4) / 5
    ∧ (gen_batches (delEvents user_id (credIds env user_id)) 5).all
        (fun b => decide (b.length ≤ 5)) = true
    ∧ (remove_all_credentials_from_user env user_id member_id s).1.countP isDeleteEv
        = (credIds env user_id).length
    ∧ (remove_all_credentials_from_user env user_id member_id s).1.countP isGetEv = 1 := by
  have hmain : remove_all_credentials_from_user env user_id member_id s
      = (Event.req "GET" (userCredsListUrl user_id) none ::
          ((gen_batches (delEvents user_id (credIds env user_id)) 5).map
            (fun b => b ++ [Event.pause])).flatten,
         s, .ok true) := by
    simp only [remove_all_credentials_from_user, list_all_user_credentials, bindM,
      remote, pureM, credIds, delEvents]
    rw [gen_batches_map (fun cid => remote (delEv user_id cid) (JsonVal.obj []))
      ((env.userCreds user_id).map CredRec.id) 5]
    rw [show (gen_batches ((env.userCreds user_id).map CredRec.id) 5).map
          (List.map fun cid => remote (delEv user_id cid) (JsonVal.obj []))
        = (gen_batches ((env.userCreds user_id).map CredRec.id) 5).map
            (fun b => b.map fun cid => remote (delEv user_id cid) (JsonVal.obj []))
      from rfl]
    rw [run_batches_remotes user_id (gen_batches ((env.userCreds user_id).map CredRec.id) 5) s]
    rw [gen_batches_map (delEv user_id) ((env.userCreds user_id).map CredRec.id) 5]
    simp only [List.map_map, List.append_nil, List.nil_append, List.singleton_append,
      Function.comp]
    rfl
  refine ⟨hmain, gen_batches_join _ 5 (by omega), ?_, gen_batches_all_le5 _, ?_, ?_⟩
  · rw [gen_batches_length5]
    simp only [delEvents, List.length_map]
  · rw [hmain]
    simp only [List.countP_cons]
    rw [countP_flatten_pause _ _ rfl, gen_batches_join _ 5 (by omega),
      countP_delEvents_delete]
    rfl
  · rw [hmain]
    simp only [List.countP_cons]
    rw [countP_flatten_pause _ _ rfl, gen_batches_join _ 5 (by omega),
      countP_delEvents_get]
    rfl

/-- C1 (code bug): with six group names — two batches — every name is
resolved (all six land in the cache) and exactly one POST is issued, but
its `addGroups` payload is only the last batch's id `["6"]`, not the
complete resolved set: the source accumulates `res` and then posts `x`. -/
theorem assign_groups_posts_only_last_batch :
    (assign_user_to_groups envSix "42" ["G1", "G2", "G3", "G4", "G5", "G6"] st0).1.filterMap
        postedAddGroups = [["6"]]
    ∧ (assign_user_to_groups envSix "42" ["G1", "G2", "G3", "G4", "G5", "G6"] st0).1.countP
        isPostEv = 1
    ∧ (assign_user_to_groups envSix "42" ["G1", "G2", "G3", "G4", "G5", "G6"] st0).2.1.groupCache
        = [("G1", "1"), ("G2", "2"), ("G3", "3"), ("G4", "4"), ("G5", "5"), ("G6", "6")]
    ∧ (assign_user_to_groups envSix "42" ["G1", "G2", "G3", "G4", "G5", "G6"] st0).1.filterMap
        postedAddGroups ≠ [["1", "2", "3", "4", "5", "6"]] := by
  refine ⟨rfl, rfl, rfl, ?_⟩
  decide

/-- C2 (code bug): on the not-found path with an empty (or omitted) group
list, `create_user` does issue the single create POST, but then raises
`UnboundLocalError` from `_assign_user_to_groups` (the loop never bound
`x`) instead of returning the user's id. -/
theorem create_user_empty_groups_raises :
    (create_user envBase "Test" "User" "999999" (some []) none none st0).2.2
      = .error (.unboundLocal "x")
    ∧ (create_user envBase "Test" "User" "999999" none none none st0).2.2
      = .error (.unboundLocal "x")
    ∧ (create_user envBase "Test" "User" "999999" (some []) none none st0).1.countP
        isPostEv = 1 :=
  ⟨rfl, rfl, rfl⟩

/-- C4 (counterexample): member id `"42"` resolves to the fixture user
whose first name is exactly the supplied `"Test"`; only the first name is
supplied, yet `toggle_member_suspend` refuses (zero PUTs) because the
guard also compares the unsupplied last name against `None`. -/
theorem toggle_suspend_single_name_counterexample :
    toggle_member_suspend envToggle "42" true (some "Test") none st0
      = ([Event.req "GET" customFieldsUrl none,
          Event.req "GET" (usersFilterUrl "11" "42") none],
         stWarm, .error (.brivoError refusalMsg))
    ∧ uTest.firstName = "Test"
    ∧ (toggle_member_suspend envToggle "42" true (some "Test") none st0).1.countP
        isPutEv = 0 :=
  ⟨rfl, rfl, rfl⟩

/-- C5 (code bug): a successful wrapped response `{data: [...]}` is
unwrapped and a dict without `data` is returned whole, but a bare JSON
list body makes `call` raise `AttributeError` (`request_data.get` on a
list) instead of returning the list. -/
theorem call_bare_list_raises_attribute_error :
    (call tokFresh 0 "/success" "GET" none none
        { status := 200,
          jsonBody := some (JsonVal.arr [JsonVal.num 1, JsonVal.num 2, JsonVal.num 3]),
          text := "" }).2
      = .error (.attributeError "object has no attribute get")
    ∧ (call tokFresh 0 "/success" "GET" none none
        { status := 200,
          jsonBody := some (JsonVal.obj
            [("data", JsonVal.arr [JsonVal.num 1, JsonVal.num 2, JsonVal.num 3])]),
          text := "" }).2
      = .ok (JsonVal.arr [JsonVal.num 1, JsonVal.num 2, JsonVal.num 3])
    ∧ (call tokFresh 0 "/nodata" "GET" none none
        { status := 200, jsonBody := some (JsonVal.obj [("x", JsonVal.num 7)]),
          text := "" }).2
      = .ok (JsonVal.obj [("x", JsonVal.num 7)]) :=
  ⟨rfl, rfl, rfl⟩

/-- C3: when the member id resolves to a remote user whose first or last
name differs from the input, `create_user` fails with the conflict error
(whose message contains "already exists") after the single lookup GET:
the trace holds no cleanup, create or post-step call. -/
theorem create_user_conflict_no_side_calls (env : Env)
    (first_name last_name member_id : String) (group_names : Option (List String))
    (card_number facility_id : Option String) (s : St) (fid : String) (u : UserRec)
    (hfid : s.memberFieldId = some fid)
    (hu : env.usersForMember member_id = [u])
    (hname : u.firstName ≠ first_name ∨ u.lastName ≠ last_name)
    (hvalid : card_number.isNone = facility_id.isNone) :
    create_user env first_name last_name member_id group_names card_number facility_id s
      = ([Event.req "GET" (usersFilterUrl fid member_id) none], s,
         .error (.brivoError (conflictMsg member_id)))
    ∧ containsSub (conflictMsg member_id) "already exists" := by
  constructor
  · have hxor : (facility_id.isNone).xor (card_number.isNone) = false := by
      rw [hvalid, Bool.xor_self]
    simp only [create_user, hxor, Bool.false_eq_true, if_false, bindM, tryCatchPy]
    rw [find_user_warm_single env member_id s fid u hfid hu]
    simp only [if_pos hname, throwPy, isUserNotFound, Bool.false_eq_true, if_false,
      List.append_nil]
  · refine ⟨"User with member ID " ++ member_id ++ " ",
      " in Brivo, but with different name. Refusing to update automatically", ?_⟩
    simp only [conflictMsg, strAppendAssoc]
    rfl

/-- C3 witness: the conflict theorem instantiated at the fixture
directory whose member-id lookup answers with Bob Smith while "Test
User" is supplied. -/
theorem create_user_conflict_no_side_calls_witness :
    create_user envConflict "Test" "User" "999999" (some []) none none stWarm
      = ([Event.req "GET" (usersFilterUrl "11" "999999") none], stWarm,
         .error (.brivoError (conflictMsg "999999")))
    ∧ containsSub (conflictMsg "999999") "already exists" :=
  create_user_conflict_no_side_calls envConflict "Test" "User" "999999" (some [])
    none none stWarm "11" uBob rfl rfl (Or.inl (by decide)) rfl

/-- C4 (amended): with the member id resolving to one remote user, the
operation refuses (zero PUTs, message containing "Refusing") exactly when
a name is supplied and the pair of supplied names does not both match the
remote record — an omitted name counting as a mismatch; when no name is
supplied, or both names are supplied and both match, it issues exactly
one PUT to the suspended-flag endpoint carrying the suspend flag. -/
theorem toggle_suspend_guard_amended (env : Env) (member_id : String) (suspend : Bool)
    (first_name last_name : Option String) (s : St) (fid : String) (u : UserRec)
    (hfid : s.memberFieldId = some fid)
    (hu : env.usersForMember member_id = [u]) :
    (suspend_guard u first_name last_name = true →
       toggle_member_suspend env member_id suspend first_name last_name s
         = ([Event.req "GET" (usersFilterUrl fid member_id) none], s,
            .error (.brivoError refusalMsg))
       ∧ containsSub refusalMsg "Refusing")
    ∧ (suspend_guard u first_name last_name = false →
       toggle_member_suspend env member_id suspend first_name last_name s
         = ([Event.req "GET" (usersFilterUrl fid member_id) none,
             Event.req "PUT" (suspendUrl u.id) (some (Body.suspendedBody suspend))],
            s, .ok (JsonVal.obj []))) := by
  constructor
  · intro hg
    constructor
    · simp only [toggle_member_suspend, bindM]
      rw [find_user_warm_single env member_id s fid u hfid hu]
      simp only [hg, if_true, throwPy, List.append_nil, eq_self_iff_true]
    · exact ⟨"Member ID does not match the first and last name. ", " to suspend", rfl⟩
  · intro hg
    simp only [toggle_member_suspend, bindM]
    rw [find_user_warm_single env member_id s fid u hfid hu]
    simp only [hg, Bool.false_eq_true, if_false, remote, List.append_nil,
      List.singleton_append]

/-- C4 witness: the amended guard applied at the fixture directory — both
names supplied and matching issues the single PUT; a mismatching pair is
refused with zero PUTs. -/
theorem toggle_suspend_guard_amended_witness :
    toggle_member_suspend envToggle "42" true (some "Test") (some "User") stWarm
      = ([Event.req "GET" (usersFilterUrl "11" "42") none,
          Event.req "PUT" (suspendUrl "16") (some (Body.suspendedBody true))],
         stWarm, .ok (JsonVal.obj []))
    ∧ toggle_member_suspend envToggle "42" true (some "Tes") (some "Use") stWarm
      = ([Event.req "GET" (usersFilterUrl "11" "42") none], stWarm,
         .error (.brivoError refusalMsg)) := by
  constructor
  · exact (toggle_suspend_guard_amended envToggle "42" true (some "Test") (some "User")
      stWarm "11" uTest rfl rfl).2 (by decide)
  · exact ((toggle_suspend_guard_amended envToggle "42" true (some "Tes") (some "Use")
      stWarm "11" uTest rfl rfl).1 (by decide)).1

/-- On the not-found path with a warmed member-field cache and an empty
group list, `create_user` issues the lookup GET, the create POST and the
member-id PUT, then raises the unbound-`x` error from the empty group
assignment. -/
theorem create_user_notfound_empty_groups (env : Env)
    (first_name last_name member_id : String) (s : St) (fid : String)
    (hfid : s.memberFieldId = some fid)
    (hu : env.usersForMember member_id = []) :
    create_user env first_name last_name member_id (some []) none none s
      = ([Event.req "GET" (usersFilterUrl fid member_id) none,
          Event.req "POST" usersUrl (some (Body.nameBody first_name last_name)),
          Event.req "PUT" (userCustomFieldUrl env.createdUser.id fid)
            (some (Body.valueBody member_id))],
         s, .error (.unboundLocal "x")) := by
  simp only [create_user, Option.isNone_none, Bool.xor_self, Bool.false_eq_true, if_false,
    bindM, tryCatchPy]
  rw [find_user_warm_empty env member_id s fid hfid hu]
  simp only [isUserNotFound, if_true, remote, truthyS, Bool.false_eq_true, if_false,
    Option.getD, gatherM, runSeq, mvoid, bindM, set_member_id_value,
    find_memberid_custom_field, hfid, assign_user_to_groups, gen_batches,
    List.length_nil, gen_batchesF, assign_batches_loop, pureM, throwPy, collectResults,
    List.append_nil, List.nil_append, List.singleton_append]
  rfl

/-- When several remote users match the member id, `create_user`
propagates the (uncaught) multiple-matches error after the single lookup
GET. -/
theorem create_user_multi_propagates (env : Env)
    (first_name last_name member_id : String) (group_names : Option (List String))
    (card_number facility_id : Option String) (s : St) (fid : String)
    (u1 u2 : UserRec) (rest : List UserRec)
    (hfid : s.memberFieldId = some fid)
    (hu : env.usersForMember member_id = u1 :: u2 :: rest)
    (hvalid : card_number.isNone = facility_id.isNone) :
    create_user env first_name last_name member_id group_names card_number facility_id s
      = ([Event.req "GET" (usersFilterUrl fid member_id) none], s,
         .error (.brivoError (multiMatchMsg member_id))) := by
  have hxor : (facility_id.isNone).xor (card_number.isNone) = false := by
    rw [hvalid, Bool.xor_self]
  simp only [create_user, hxor, Bool.false_eq_true, if_false, bindM, tryCatchPy]
  rw [find_user_warm_multi env member_id s fid u1 u2 rest hfid hu]
  simp only [isUserNotFound, Bool.false_eq_true, if_false, List.append_nil]

/-- C8: zero and multiple member-id matches are signalled distinctly:
zero matches raises the distinguished not-found error — which
`create_user` catches, going on to issue exactly one create POST —
multiple matches raises a different error that `create_user` does not
catch and instead propagates, and exactly one match returns the user
record. -/
theorem member_lookup_disambiguation (env : Env)
    (first_name last_name member_id : String) (s : St) (fid : String)
    (u1 u2 : UserRec) (rest : List UserRec)
    (hfid : s.memberFieldId = some fid) :
    (env.usersForMember member_id = [] →
       find_user_by_member_id env member_id s
         = ([Event.req "GET" (usersFilterUrl fid member_id) none], s,
            .error (.brivoUserNotFound (notFoundMsg member_id)))
       ∧ isUserNotFound (.brivoUserNotFound (notFoundMsg member_id)) = true
       ∧ (create_user env first_name last_name member_id (some []) none none s).1.countP
           isPostEv = 1)
    ∧ (env.usersForMember member_id = u1 :: u2 :: rest →
       find_user_by_member_id env member_id s
         = ([Event.req "GET" (usersFilterUrl fid member_id) none], s,
            .error (.brivoError (multiMatchMsg member_id)))
       ∧ isUserNotFound (.brivoError (multiMatchMsg member_id)) = false
       ∧ (create_user env first_name last_name member_id (some []) none none s).2.2
           = .error (.brivoError (multiMatchMsg member_id)))
    ∧ (env.usersForMember member_id = [u1] →
       find_user_by_member_id env member_id s
         = ([Event.req "GET" (usersFilterUrl fid member_id) none], s, .ok u1)) := by
  refine ⟨fun hu => ⟨?_, rfl, ?_⟩, fun hu => ⟨?_, rfl, ?_⟩, fun hu => ?_⟩
  · exact find_user_warm_empty env member_id s fid hfid hu
  · rw [create_user_notfound_empty_groups env first_name last_name member_id s fid hfid hu]
    rfl
  · exact find_user_warm_multi env member_id s fid u1 u2 rest hfid hu
  · rw [create_user_multi_propagates env first_name last_name member_id (some []) none
      none s fid u1 u2 rest hfid hu rfl]
  · exact find_user_warm_single env member_id s fid u1 hfid hu

/-- C8 witness: the disambiguation theorem applied at a directory that
answers with zero, two and one matches for the member ids `"zero"`,
`"two"` and `"one"` respectively. -/
theorem member_lookup_disambiguation_witness :
    (find_user_by_member_id envMulti "zero" stWarm).2.2
      = .error (.brivoUserNotFound (notFoundMsg "zero"))
    ∧ (find_user_by_member_id envMulti "two" stWarm).2.2
      = .error (.brivoError (multiMatchMsg "two"))
    ∧ (create_user envMulti "Test" "User" "two" (some []) none none stWarm).2.2
      = .error (.brivoError (multiMatchMsg "two"))
    ∧ (find_user_by_member_id envMulti "one" stWarm).2.2 = .ok uTest := by
  refine ⟨?_, ?_, ?_, ?_⟩
  · rw [((member_lookup_disambiguation envMulti "Test" "User" "zero" stWarm "11"
      uTest uBob [] rfl).1 rfl).1]
  · rw [((member_lookup_disambiguation envMulti "Test" "User" "two" stWarm "11"
      uTest uBob [] rfl).2.1 rfl).1]
  · exact ((member_lookup_disambiguation envMulti "Test" "User" "two" stWarm "11"
      uTest uBob [] rfl).2.1 rfl).2.2
  · rw [((member_lookup_disambiguation envMulti "Test" "User" "one" stWarm "11"
      uTest uBob [] rfl).2.2 rfl)]

/-- C7: an authenticated call entered with the stored expiry in the past
performs exactly one refresh — carrying the stored refresh token — before
its request, and entered with the expiry in the future performs none;
this holds for both `call` and `healthcheck`. -/
theorem token_freshness_refresh_counts (tok : TokenState) (now : Int)
    (url method : String) (data body : Option String) (resp : HttpResponse)
    (hbd : (truthyS body && truthyS data) = false) :
    (tok.expiresAfter < now →
       (call tok now url method data body resp).1
         = [Event.refresh tok.refreshToken,
            Event.req method url ((if truthyS body then body else data).map Body.raw)]
       ∧ (healthcheck tok now resp).1
         = [Event.refresh tok.refreshToken,
            Event.req "GET" "https://api.brivo.com/v1/api/administrators" none])
    ∧ (now < tok.expiresAfter →
       (call tok now url method data body resp).1
         = [Event.req method url ((if truthyS body then body else data).map Body.raw)]
       ∧ (healthcheck tok now resp).1
         = [Event.req "GET" "https://api.brivo.com/v1/api/administrators" none]) := by
  constructor
  · intro h
    constructor
    · simp only [call, hbd, Bool.false_eq_true, if_false, if_pos h, List.singleton_append]
    · simp only [healthcheck, if_pos h, List.singleton_append]
  · intro h
    have hnot : ¬ tok.expiresAfter < now := by omega
    constructor
    · simp only [call, hbd, Bool.false_eq_true, if_false, if_neg hnot, List.nil_append]
    · simp only [healthcheck, if_neg hnot, List.nil_append]

/-- C7 witness: the freshness theorem applied to the stale and the fresh
fixture tokens at time 0. -/
theorem token_freshness_refresh_counts_witness :
    (call tokStale 0 "/u" "GET" none none respOk).1
      = [Event.refresh (some "test_refresh_token"), Event.req "GET" "/u" none]
    ∧ (healthcheck tokStale 0 respOk).1
      = [Event.refresh (some "test_refresh_token"),
         Event.req "GET" "https://api.brivo.com/v1/api/administrators" none]
    ∧ (call tokFresh 0 "/u" "GET" none none respOk).1 = [Event.req "GET" "/u" none]
    ∧ (healthcheck tokFresh 0 respOk).1
      = [Event.req "GET" "https://api.brivo.com/v1/api/administrators" none] := by
  refine ⟨?_, ?_, ?_, ?_⟩
  · exact ((token_freshness_refresh_counts tokStale 0 "/u" "GET" none none respOk
      rfl).1 (by decide)).1
  · exact ((token_freshness_refresh_counts tokStale 0 "/u" "GET" none none respOk
      rfl).1 (by decide)).2
  · exact ((token_freshness_refresh_counts tokFresh 0 "/u" "GET" none none respOk
      rfl).2 (by decide)).1
  · exact ((token_freshness_refresh_counts tokFresh 0 "/u" "GET" none none respOk
      rfl).2 (by decide)).2

/-- C10: a client constructed without token data starts with both tokens
`None` and the expiry equal to the construction time, so any later
authenticated call (`call` or `healthcheck`) refreshes — sending the
`None` refresh token — before its request; construction with token data
restores the saved triple unchanged. -/
theorem init_token_state_behavior (t0 t1 : Int) (td : TokenState)
    (url method : String) (data : Option String) (resp : HttpResponse)
    (h : t0 < t1) :
    (initTokenState t0 none).expiresAfter = t0
    ∧ (initTokenState t0 none).accessToken = none
    ∧ (initTokenState t0 none).refreshToken = none
    ∧ (call (initTokenState t0 none) t1 url method data none resp).1
        = [Event.refresh none, Event.req method url (data.map Body.raw)]
    ∧ (healthcheck (initTokenState t0 none) t1 resp).1
        = [Event.refresh none,
           Event.req "GET" "https://api.brivo.com/v1/api/administrators" none]
    ∧ initTokenState t0 (some td) = td := by
  refine ⟨rfl, rfl, rfl, ?_, ?_, rfl⟩
  · simp only [call, truthyS, Bool.false_and, Bool.false_eq_true, if_false,
      initTokenState, if_pos h, List.singleton_append]
  · simp only [healthcheck, initTokenState, if_pos h, List.singleton_append]

/-- C10 witness: the construction theorem applied at construction time 0,
call time 1, with the fresh fixture token as the saved data. -/
theorem init_token_state_behavior_witness :
    (initTokenState 0 none).expiresAfter = 0
    ∧ (call (initTokenState 0 none) 1 "/u" "GET" none none respOk).1
        = [Event.refresh none, Event.req "GET" "/u" none]
    ∧ (healthcheck (initTokenState 0 none) 1 respOk).1
        = [Event.refresh none,
           Event.req "GET" "https://api.brivo.com/v1/api/administrators" none]
    ∧ initTokenState 0 (some tokFresh) = tokFresh := by
  have h := init_token_state_behavior 0 1 tokFresh "/u" "GET" none respOk (by decide)
  exact ⟨h.1, h.2.2.2.1, h.2.2.2.2.1, h.2.2.2.2.2⟩

/-- A successful `jlookup` pins a member of the association list. -/
theorem jlookup_mem (kvs : List (String × JsonVal)) (k : String) (v : JsonVal)
    (h : jlookup kvs k = some v) : (k, v) ∈ kvs := by
  induction kvs with
  | nil => simp [jlookup] at h
  | cons p rest ih =>
    obtain ⟨pk, pv⟩ := p
    by_cases hk : pk = k
    · subst hk
      simp only [jlookup, eq_self_iff_true, if_true, Option.some.injEq] at h
      subst h
      exact List.mem_cons_self _ _
    · simp only [jlookup, if_neg hk] at h
      exact List.mem_cons_of_mem _ (ih h)

/-- Every message of the classifier starts with the bracketed status, so
it contains the status text. -/
theorem errMsgHead_contains (status : Nat) (r : String) :
    containsSub (errMsgHead status ++ r) (toString status) :=
  ⟨"Error from BrivoAPI [", "]: " ++ r, by simp only [errMsgHead, strAppendAssoc]⟩

/-- The spec-side classification message always carries the status. -/
theorem specErrorMessage_contains_status (status : Nat)
    (kvs : List (String × JsonVal)) (text : String) :
    containsSub (specErrorMessage status kvs text) (toString status) := by
  unfold specErrorMessage
  split
  · rw [strAppendAssoc]
    exact errMsgHead_contains status _
  · split
    · rw [strAppendAssoc]
      exact errMsgHead_contains status _
    · exact errMsgHead_contains status text

/-- C6: for every response with status at least 400 whose body parses to
a JSON object with string values, `_process_error` raises a single
`BrivoApiError` whose message is exactly the spec's classification —
`message` (suffixed with `error_description` when present), else `error`
(same suffix), else the raw body text — and the message carries the
status. -/
theorem error_classification_order (status : Nat)
    (kvs : List (String × JsonVal)) (text : String) (h4 : 400 ≤ status)
    (hstr : ∀ p ∈ kvs, ∃ strv, p.2 = JsonVal.str strv) :
    process_error status (some (JsonVal.obj kvs)) text
      = some (.brivoApiError (specErrorMessage status kvs text))
    ∧ containsSub (specErrorMessage status kvs text) (toString status) := by
  refine ⟨?_, specErrorMessage_contains_status status kvs text⟩
  have hnlt : ¬ status < 400 := by omega
  simp only [process_error, if_neg hnlt]
  cases hm : jlookup kvs "message" with
  | some v =>
    obtain ⟨ms, hms⟩ := hstr _ (jlookup_mem kvs "message" v hm)
    simp only at hms
    subst hms
    simp only [firstPresentKey, pyContainsKey, hm, Option.isSome_some, pyIndex,
      specErrorMessage]
  | none =>
    cases he : jlookup kvs "error" with
    | some w =>
      obtain ⟨es, hes⟩ := hstr _ (jlookup_mem kvs "error" w he)
      simp only at hes
      subst hes
      simp only [firstPresentKey, pyContainsKey, hm, he, Option.isSome_some,
        Option.isSome_none, pyIndex, specErrorMessage]
    | none =>
      simp only [firstPresentKey, pyContainsKey, hm, he, Option.isSome_none,
        specErrorMessage]

/-- C6 witness: the classification theorem applied to the 403 fixture
body of the repository's tests. -/
theorem error_classification_order_witness :
    400 ≤ 403
    ∧ process_error 403
        (some (JsonVal.obj [("message", JsonVal.str "Fake permission denied")])) ""
      = some (.brivoApiError
          (specErrorMessage 403 [("message", JsonVal.str "Fake permission denied")] ""))
    ∧ containsSub
        (specErrorMessage 403 [("message", JsonVal.str "Fake permission denied")] "")
        (toString 403) := by
  have h := error_classification_order 403
    [("message", JsonVal.str "Fake permission denied")] "" (by omega)
    (by
      intro p hp
      rcases List.mem_singleton.mp hp with rfl
      exact ⟨"Fake permission denied", rfl⟩)
  exact ⟨by omega, h.1, h.2⟩
